import Mathlib

/-!
Shallow embedding of the ThinkBot adaptive-quiz core (`main.py` and
`api/__init__.py`).  Python floats are modelled as exact rationals `ℚ`,
Python ints as `Int`, Python lists as `List`, and the `dict`-based topic
preference map as an association list.  Python's guarded divisions
(`x / n if n else 0`) are translated with the same guards; an unguarded
Python division corresponds to `ℚ` division (which is total in Lean).
Wall-clock timestamps (`datetime.now()`) are passed in as explicit string
parameters.  File persistence (`save`) is I/O and is dropped from the
state-transition functions; `load`'s backward-compatibility defaulting is
modelled over a record of optional stored fields.
-/

namespace ThinkBot

/-- Python list slice `l[-n:]`: the last `n` elements (all of `l` when it is
shorter than `n`). -/
def lastN (n : Nat) (l : List α) : List α := l.drop (l.length - n)

/-- One entry of `StudentProfile.topic_preferences`
(`{"total": 0, "correct": 0, "avg_time": 0}` in `main.py`). -/
structure TopicPref where
  total : Int
  correct : Int
  avg_time : ℚ
deriving DecidableEq

/-- The per-session record appended by `record_session` in `main.py`:
the `LearningSession` dataclass fields plus the `topic` and `skipped`
keys added to `session_data`. -/
structure LearningSession where
  question_id : Int
  difficulty : String
  answer : String
  correct : Bool
  response_time : ℚ
  answer_changes : Int
  hints_used : Int
  timestamp : String
  topic : String
  skipped : Bool
deriving DecidableEq

/-- The `StudentProfile` dataclass of `main.py` (after `__post_init__`,
so the three `None`-defaulted containers are already lists/maps). -/
structure StudentProfile where
  name : String
  quizzes : Int := 0
  correct : Int := 0
  total_response_time : ℚ := 0
  total_answer_changes : Int := 0
  total_hints_used : Int := 0
  total_skipped : Int := 0
  quiz_sessions : Int := 0
  learning_sessions : List LearningSession := []
  learning_style : String := "unknown"
  preferred_difficulty : String := "medium"
  engagement_score : ℚ := 0
  last_activity : String := ""
  streak_days : Int := 0
  improvement_trend : ℚ := 0
  session_frequency : ℚ := 0
  difficulty_progression : List String := []
  topic_preferences : List (String × TopicPref) := []
deriving DecidableEq

/-- A freshly created profile, `StudentProfile(name=name)` — what `load`
returns for an unseen student. -/
def freshProfile (name : String) : StudentProfile := { name := name }

/-- `sum(1 for s in l if s['correct'])`, as a rational. -/
def countCorrect (l : List LearningSession) : ℚ := ((l.filter (·.correct)).length : ℚ)

namespace StudentProfile

/-- `accuracy` property: `correct / quizzes if quizzes else 0.0`. -/
def accuracy (p : StudentProfile) : ℚ :=
  if p.quizzes ≠ 0 then (p.correct : ℚ) / (p.quizzes : ℚ) else 0

/-- `average_response_time` property. -/
def average_response_time (p : StudentProfile) : ℚ :=
  if p.quizzes ≠ 0 then p.total_response_time / (p.quizzes : ℚ) else 0

/-- `hesitation_score` property. -/
def hesitation_score (p : StudentProfile) : ℚ :=
  if p.quizzes ≠ 0 then (p.total_answer_changes : ℚ) / (p.quizzes : ℚ) else 0

/-- `skip_rate` property. -/
def skip_rate (p : StudentProfile) : ℚ :=
  if p.quizzes ≠ 0 then (p.total_skipped : ℚ) / (p.quizzes : ℚ) else 0

/-- `hint_dependency` property. -/
def hint_dependency (p : StudentProfile) : ℚ :=
  if p.quizzes ≠ 0 then (p.total_hints_used : ℚ) / (p.quizzes : ℚ) else 0

/-- `recent_performance` property: accuracy over the last 10 sessions
(overall accuracy when fewer than 2 sessions exist). -/
def recent_performance (p : StudentProfile) : ℚ :=
  if p.learning_sessions.length < 2 then p.accuracy
  else
    let recent := lastN 10 p.learning_sessions
    if recent ≠ [] then countCorrect recent / (recent.length : ℚ) else 0

/-- `consistency_score` property: `max(0, 100 - variance*100)` of the 0/1
correctness sequence over the last 10 sessions; 50 with fewer than 3. -/
def consistency_score (p : StudentProfile) : ℚ :=
  if p.learning_sessions.length < 3 then 50
  else
    let recent := lastN 10 p.learning_sessions
    let accuracies : List ℚ := recent.map (fun s => if s.correct then 1 else 0)
    if accuracies = [] then 50
    else
      let mean_acc := accuracies.sum / (accuracies.length : ℚ)
      let variance := (accuracies.map (fun a => (a - mean_acc) ^ 2)).sum / (accuracies.length : ℚ)
      max 0 (100 - variance * 100)

/-- `learning_momentum` property: correctness rate of the last 5 sessions
minus that of the preceding ones, times 100; 0 with fewer than 5. -/
def learning_momentum (p : StudentProfile) : ℚ :=
  if p.learning_sessions.length < 5 then 0
  else
    let recent := lastN 5 p.learning_sessions
    let earlier :=
      if p.learning_sessions.length ≥ 10 then
        (lastN 10 p.learning_sessions).take 5
      else p.learning_sessions.take (p.learning_sessions.length - 5)
    if earlier = [] then 0
    else
      (countCorrect recent / (recent.length : ℚ) -
        countCorrect earlier / (earlier.length : ℚ)) * 100

/-- The time-efficiency sub-score of `engagement_level` (piecewise in the
average response time). -/
def timeScore (avg_time : ℚ) : ℚ :=
  if avg_time < 15 then 60 + avg_time / 15 * 20
  else if avg_time ≤ 45 then 80 + (45 - avg_time) / 30 * 20
  else if avg_time ≤ 90 then 80 - (avg_time - 45) / 45 * 30
  else max 20 (50 - (avg_time - 90) / 30 * 10)

/-- The weighted raw engagement score computed inside `engagement_level`
(before the learning-curve adjustment and the clamp). -/
def rawEngagementScore (p : StudentProfile) : ℚ :=
  let accuracy_score := p.accuracy * 100
  let recent_performance_score := p.recent_performance * 100
  let skip_penalty := p.skip_rate * 50
  let hint_penalty := p.hint_dependency * 30
  let hesitation_penalty := min (p.hesitation_score * 25) 30
  let behavioral_score := max 0 (100 - skip_penalty - hint_penalty - hesitation_penalty)
  let momentum_bonus := max 0 (min p.learning_momentum 20)
  let momentum_score := 50 + momentum_bonus
  (accuracy_score * 0.25 + recent_performance_score * 0.15) +
    behavioral_score * 0.25 +
    (p.consistency_score * 0.15 + momentum_score * 0.05) +
    timeScore p.average_response_time * 0.15

/-- The engagement score as stored by the `engagement_level` property when
`quizzes ≥ 2`: the raw score after the learning-curve adjustment, clamped
into `[0, 100]` by `min(100, max(0, ·))`. -/
def storedEngagementScore (p : StudentProfile) : ℚ :=
  let engagement_score := rawEngagementScore p
  let adjusted :=
    if p.quizzes < 10 then min 100 (engagement_score * 1.1)
    else if p.quizzes > 50 then engagement_score * 0.95
    else engagement_score
  min 100 (max 0 adjusted)

/-- `engagement_level` property of `main.py`, translated monolithically:
"learning" below 2 sessions, otherwise the clamped weighted score mapped
through the threshold chain.  (The Python property also writes the clamped
score back into `self.engagement_score`; the level returned is a pure
function of the counters and session list, which is what this models.) -/
def engagement_level (p : StudentProfile) : String :=
  if p.quizzes < 2 then "learning"
  else
    let stored := storedEngagementScore p
    if stored ≥ 85 then "highly_engaged"
    else if stored ≥ 70 then "engaged"
    else if stored ≥ 55 then "moderate"
    else if stored ≥ 35 then "struggling"
    else "disengaged"

/-- `learning_pace` property. -/
def learning_pace (p : StudentProfile) : String :=
  let avg_time := p.average_response_time
  if avg_time < 20 then "fast"
  else if avg_time < 60 then "moderate"
  else "slow"

end StudentProfile

/-- `max` of a nonempty Python list (`max(response_times)`); 0 on `[]`
(Python would raise there, but every use in the source is guarded by a
length check). -/
def listMax : List ℚ → ℚ
  | [] => 0
  | x :: xs => xs.foldl max x

/-- `min` of a nonempty Python list. -/
def listMin : List ℚ → ℚ
  | [] => 0
  | x :: xs => xs.foldl min x

/-- The four behavioral-archetype scores returned by
`_calculate_learning_style_scores`. -/
structure StyleScores where
  visual : ℚ
  auditory : ℚ
  kinesthetic : ℚ
  reading : ℚ
deriving DecidableEq

namespace StudentProfile

/-- `_calculate_learning_style_scores` of `main.py`, translated with the
same sequential accumulation (each `scores[...] += e` becomes an
addition).  The `(max - min)/max` quotient of the auditory bonus is an
unguarded Python division; `ℚ` division-by-zero (all response times 0)
yields 0 here where Python raises `ZeroDivisionError`.
`styleScoresRaises` below marks exactly those inputs, and theorems about
the stored style assume its negation (the classifier completes). -/
def calcLearningStyleScores (p : StudentProfile) : StyleScores :=
  let recent := lastN 20 p.learning_sessions
  if recent = [] then ⟨0, 0, 0, 0⟩
  else
    -- 1. visual indicators
    let visual_questions := recent.filter
      (fun s => s.topic = "geometry" ∨ s.topic = "colors" ∨ s.topic = "patterns")
    let visual : ℚ :=
      if visual_questions ≠ [] then
        let visual_accuracy := countCorrect visual_questions / (visual_questions.length : ℚ)
        let visual_avg_time := (visual_questions.map (·.response_time)).sum / (visual_questions.length : ℚ)
        let visual_hesitation := ((visual_questions.map (·.answer_changes)).sum : ℚ) / (visual_questions.length : ℚ)
        visual_accuracy * 0.4 + max 0 ((60 - visual_avg_time) / 60) * 0.3 +
          max 0 ((2 - visual_hesitation) / 2) * 0.3
      else 0
    -- 2. auditory indicators
    let word_questions := recent.filter
      (fun s => s.topic = "geography" ∨ s.topic = "language" ∨ s.topic = "word_problems")
    let auditory1 : ℚ :=
      if word_questions ≠ [] then
        countCorrect word_questions / (word_questions.length : ℚ) * 0.5
      else p.accuracy * 0.3
    let response_times := recent.map (·.response_time)
    let auditory2 : ℚ :=
      if response_times.length > 1 then
        let time_variance := (response_times.map (fun t => (t - p.average_response_time) ^ 2)).sum /
          (response_times.length : ℚ)
        max 0 (1 - time_variance / 1000) * 0.4
      else 0
    -- 3. kinesthetic indicators
    let hint_usage_rate := p.hint_dependency
    let kin1 := min hint_usage_rate 1 * 0.4
    let complex_questions := recent.filter (fun s => s.difficulty = "hard")
    let kin2 : ℚ :=
      if complex_questions ≠ [] then
        countCorrect complex_questions / (complex_questions.length : ℚ) * 0.3
      else 0
    let avg_changes := ((recent.map (·.answer_changes)).sum : ℚ) / (recent.length : ℚ)
    let kin3 : ℚ := if 0.5 ≤ avg_changes ∧ avg_changes ≤ 2 then 0.3 else 0
    -- 4. reading indicators
    let reading1 : ℚ := if p.average_response_time > 45 then 0.3 else 0
    let reading2 : ℚ := if p.accuracy > 0.6 then p.accuracy * 0.4 else 0
    let reading3 : ℚ := max 0 (1 - p.skip_rate) * 0.3
    -- 5. cross adjustments
    let visualAdj : ℚ := if p.average_response_time < 25 ∧ p.accuracy > 0.7 then 0.2 else 0
    let readingAdj : ℚ := if p.average_response_time > 60 ∧ p.accuracy > 0.6 then 0.2 else 0
    let kinAdj : ℚ := if hint_usage_rate > 0.3 then 0.2 else 0
    let auditoryAdj : ℚ :=
      if response_times.length > 5 then
        let time_consistency := 1 - (listMax response_times - listMin response_times) / listMax response_times
        if time_consistency > 0.7 then 0.2 else 0
      else 0
    { visual := visual + visualAdj
      auditory := auditory1 + auditory2 + auditoryAdj
      kinesthetic := kin1 + kin2 + kin3 + kinAdj
      reading := reading1 + reading2 + reading3 + readingAdj }

/-- The `ZeroDivisionError` state of `_calculate_learning_style_scores`:
the auditory consistency bonus divides `(max - min)` by
`max(response_times)` whenever the 20-session window holds more than 5
response times, and Python raises there exactly when that maximum is 0.
(With an empty window the function returns early and never reaches the
division.)  On these profiles the Python classifier raises instead of
completing; the total `ℚ` model above returns a value, so statements
about the stored style are made under the negation of this predicate. -/
def styleScoresRaises (p : StudentProfile) : Prop :=
  5 < ((lastN 20 p.learning_sessions).map (fun s => s.response_time)).length ∧
    listMax ((lastN 20 p.learning_sessions).map (fun s => s.response_time)) = 0

end StudentProfile

/-- The conditional chain of `_update_learning_style` (lines 391-398):
visual only when strictly above the other three, then auditory when
strictly above kinesthetic and reading, then kinesthetic when strictly
above reading, else reading. -/
def styleSelection (s : StyleScores) : String :=
  if s.visual > s.auditory ∧ s.visual > s.kinesthetic ∧ s.visual > s.reading then "visual"
  else if s.auditory > s.kinesthetic ∧ s.auditory > s.reading then "auditory"
  else if s.kinesthetic > s.reading then "kinesthetic"
  else "reading"

namespace StudentProfile

/-- `_update_learning_style` of `main.py`: no-op with fewer than 10
sessions, otherwise store the style chosen by the conditional chain over
the four style scores. -/
def updateLearningStyle (p : StudentProfile) : StudentProfile :=
  if p.learning_sessions.length < 10 then p
  else { p with learning_style := styleSelection p.calcLearningStyleScores }

/-- The improvement-trend value computed by `_update_improvement_trend`:
accuracy of the last 5 sessions minus accuracy of the 5 before them,
times 100; 0 with fewer than 10 sessions. -/
def improvementTrendValue (p : StudentProfile) : ℚ :=
  if p.learning_sessions.length < 10 then 0
  else
    let recent := lastN 5 p.learning_sessions
    let previous :=
      if p.learning_sessions.length ≥ 10 then (lastN 10 p.learning_sessions).take 5
      else p.learning_sessions.take (p.learning_sessions.length - 5)
    if previous = [] then 0
    else
      (countCorrect recent / (recent.length : ℚ) -
        countCorrect previous / (previous.length : ℚ)) * 100

/-- `_update_improvement_trend` of `main.py`. -/
def updateImprovementTrend (p : StudentProfile) : StudentProfile :=
  { p with improvement_trend := improvementTrendValue p }

/-- The engagement-score value computed by `_update_engagement_score`:
the weighted combination of accuracy, time and consistency factors,
without any clamping (0 with no sessions). -/
def engagementScoreValue (p : StudentProfile) : ℚ :=
  if p.quizzes = 0 then 0
  else
    let accuracy_factor := p.accuracy
    let time_factor := max 0 (1 - p.average_response_time / 120)
    let consistency_factor := 1 - p.hesitation_score / 3
    accuracy_factor * 0.5 + time_factor * 0.3 + consistency_factor * 0.2

/-- `_update_engagement_score` of `main.py`. -/
def updateEngagementScore (p : StudentProfile) : StudentProfile :=
  { p with engagement_score := engagementScoreValue p }

end StudentProfile

/-- Lookup in the topic-preference association list (Python dict access). -/
def tpFind (l : List (String × TopicPref)) (k : String) : Option TopicPref :=
  (l.find? (fun e => e.1 == k)).map (·.2)

/-- Pointwise update of one key of the topic-preference map. -/
def tpUpdate (l : List (String × TopicPref)) (k : String) (f : TopicPref → TopicPref) :
    List (String × TopicPref) :=
  l.map (fun e => if e.1 == k then (e.1, f e.2) else e)

/-- The topic-preference bookkeeping of `record_session`: insert the topic
with zeroed counters when missing, then bump `total`, `correct` and the
running average response time (the average divides by the post-increment
total). -/
def updateTopicPreferences (tp : List (String × TopicPref)) (topic : String)
    (correct : Bool) (response_time : ℚ) : List (String × TopicPref) :=
  let tp1 := if (tpFind tp topic).isNone then tp ++ [(topic, ⟨0, 0, 0⟩)] else tp
  tpUpdate tp1 topic (fun e =>
    let total := e.total + 1
    let newCorrect := e.correct + (if correct then 1 else 0)
    let avg := (e.avg_time * ((total : ℚ) - 1) + response_time) / (total : ℚ)
    ⟨total, newCorrect, avg⟩)

namespace StudentProfile

/-- `record_session` of `main.py` (minus the final `save()` call, which is
file I/O): append the session record, bump every aggregate counter, update
the topic preferences and the bounded difficulty progression, then run the
learning-style, improvement-trend and engagement-score updates.  The two
`datetime.now()` reads are passed in as the `ts` parameter. -/
def record_session (p : StudentProfile) (question_id : Int) (difficulty answer : String)
    (correct : Bool) (response_time : ℚ) (answer_changes : Int) (hints_used : Int)
    (topic : String) (skipped : Bool) (ts : String) : StudentProfile :=
  let session : LearningSession :=
    { question_id := question_id, difficulty := difficulty, answer := answer,
      correct := correct, response_time := response_time,
      answer_changes := answer_changes, hints_used := hints_used,
      timestamp := ts, topic := topic, skipped := skipped }
  let p1 := { p with
    learning_sessions := p.learning_sessions ++ [session],
    quizzes := p.quizzes + 1,
    total_response_time := p.total_response_time + response_time,
    total_answer_changes := p.total_answer_changes + answer_changes,
    total_hints_used := p.total_hints_used + hints_used,
    correct := p.correct + (if correct then 1 else 0),
    total_skipped := p.total_skipped + (if skipped then 1 else 0) }
  let p2 := { p1 with
    topic_preferences := updateTopicPreferences p1.topic_preferences topic correct response_time }
  let dp := p2.difficulty_progression ++ [difficulty]
  let p3 := { p2 with difficulty_progression := if dp.length > 20 then lastN 20 dp else dp }
  let p4 := p3.updateLearningStyle
  let p5 := p4.updateImprovementTrend
  let p6 := p5.updateEngagementScore
  { p6 with last_activity := ts }

/-- `end_quiz_session` of `main.py` (minus `save()`). -/
def end_quiz_session (p : StudentProfile) (ts : String) : StudentProfile :=
  { p with quiz_sessions := p.quiz_sessions + 1, last_activity := ts }

end StudentProfile

/-- A persisted profile JSON object as `StudentProfile.load` sees it:
`name` is always present (old and new files alike), every other field may
be missing.  -/
structure StoredProfile where
  name : String
  quizzes : Option Int := none
  correct : Option Int := none
  total_response_time : Option ℚ := none
  total_answer_changes : Option Int := none
  total_hints_used : Option Int := none
  total_skipped : Option Int := none
  quiz_sessions : Option Int := none
  learning_sessions : Option (List LearningSession) := none
  learning_style : Option String := none
  preferred_difficulty : Option String := none
  engagement_score : Option ℚ := none
  last_activity : Option String := none
  streak_days : Option Int := none
  improvement_trend : Option ℚ := none
  session_frequency : Option ℚ := none
  difficulty_progression : Option (List String) := none
  topic_preferences : Option (List (String × TopicPref)) := none
deriving DecidableEq

/-- `StudentProfile.load` of `main.py` on an existing parseable file:
the backward-compatibility block fills `learning_sessions`,
`learning_style`, `preferred_difficulty`, `engagement_score` and
`last_activity` with their defaults but fills a missing `quiz_sessions`
with 1 ("For existing students, start with 1 quiz session"); every other
missing key then takes its dataclass default via `cls(**data)` and
`__post_init__`.  The net per-field effect is the `getD` below. -/
def loadProfile (d : StoredProfile) : StudentProfile :=
  { name := d.name
    quizzes := d.quizzes.getD 0
    correct := d.correct.getD 0
    total_response_time := d.total_response_time.getD 0
    total_answer_changes := d.total_answer_changes.getD 0
    total_hints_used := d.total_hints_used.getD 0
    total_skipped := d.total_skipped.getD 0
    quiz_sessions := d.quiz_sessions.getD 1
    learning_sessions := d.learning_sessions.getD []
    learning_style := d.learning_style.getD "unknown"
    preferred_difficulty := d.preferred_difficulty.getD "medium"
    engagement_score := d.engagement_score.getD 0
    last_activity := d.last_activity.getD ""
    streak_days := d.streak_days.getD 0
    improvement_trend := d.improvement_trend.getD 0
    session_frequency := d.session_frequency.getD 0
    difficulty_progression := d.difficulty_progression.getD []
    topic_preferences := d.topic_preferences.getD [] }

/-- One entry of the question bank (`questions.json`): `id`, `question`,
`answer` are always present, `topic`, `hint`, `explanation` are accessed
with `dict.get` and may be missing. -/
structure Question where
  id : Int
  question : String
  answer : String
  topic : Option String := none
  hint : Option String := none
  explanation : Option String := none
deriving DecidableEq

/-- The `QUESTIONS` mapping: difficulty tier → question list.  The source
only ever indexes it with `"easy"`, `"medium"` or `"hard"`. -/
structure QuestionBank where
  easy : List Question
  medium : List Question
  hard : List Question
deriving DecidableEq

/-- `QUESTIONS[level]` for the three tiers the source uses. -/
def QuestionBank.tier (b : QuestionBank) (level : String) : List Question :=
  if level = "easy" then b.easy
  else if level = "medium" then b.medium
  else b.hard

/-- A Python `topic` argument: `None` and `""` are both falsy under
`if topic:`, so both disable the topic filter. -/
def topicActive : Option String → Option String
  | none => none
  | some t => if t = "" then none else some t

namespace Select

open StudentProfile

/-- `select_question` lines 50-51: the last 5 sessions. -/
def recentSessions (p : StudentProfile) : List LearningSession :=
  lastN 5 p.learning_sessions

/-- `select_question` recent accuracy: correctness rate of the last 5
sessions, falling back to `profile.accuracy` when there are none. -/
def recentAccuracy (p : StudentProfile) : ℚ :=
  if recentSessions p ≠ [] then
    countCorrect (recentSessions p) / ((recentSessions p).length : ℚ)
  else p.accuracy

/-- The adaptive difficulty cascade of `select_question` (lines 58-67). -/
def chooseLevel (p : StudentProfile) : String :=
  let recent_accuracy := recentAccuracy p
  let engagement := p.engagement_level
  let pace := p.learning_pace
  if engagement = "struggling" ∨ recent_accuracy < 0.3 then "easy"
  else if engagement = "highly_engaged" ∧ recent_accuracy > 0.8 then "hard"
  else if pace = "fast" ∧ recent_accuracy > 0.7 then "hard"
  else if pace = "slow" ∧ recent_accuracy < 0.6 then "easy"
  else "medium"

/-- Topic filtering of `select_question` (lines 69-85): narrow the chosen
tier to the topic; when nothing matches, search the other tiers in the
order easy, medium, hard and switch the level to the first tier having
the topic; keep the full original tier if no tier has it. -/
def topicFiltered (b : QuestionBank) (level : String) (topic : Option String) :
    String × List Question :=
  let available := b.tier level
  match topicActive topic with
  | none => (level, available)
  | some t =>
    let topic_questions := available.filter (fun q => q.topic = some t)
    if topic_questions ≠ [] then (level, topic_questions)
    else
      match (["easy", "medium", "hard"].filter (· ≠ level)).findSome?
          (fun other_level =>
            let other_questions := (b.tier other_level).filter (fun q => q.topic = some t)
            if other_questions ≠ [] then some (other_level, other_questions) else none) with
      | some r => r
      | none => (level, available)

/-- `recent_question_ids` (line 88): ids of the last 10 elements of the
last-5 window — i.e. of the last 5 recorded sessions — skipping falsy
(zero) ids. -/
def recentQuestionIds (p : StudentProfile) : List Int :=
  ((lastN 10 (recentSessions p)).filter (fun s => s.question_id ≠ 0)).map (·.question_id)

/-- The recomputation of the candidate pool after the auto-generation
attempt (lines 103-107): the (possibly replenished) bank's tier, a strict
topic filter, then the recency exclusion. -/
def regeneratedAvail (b2 : QuestionBank) (level : String) (topic : Option String)
    (rq : List Int) : List Question :=
  let a := b2.tier level
  let a2 : List Question := match topicActive topic with
    | some t => a.filter (fun q => q.topic = some t)
    | none => a
  a2.filter (fun q => !rq.contains q.id)

/-- The candidate pool (and final level) computed by `select_question`
before the random choice.  `b` is the bank at entry; `b2` is the global
bank after the best-effort auto-generation branch (equal to `b` whenever
generation fails or changes nothing), which only matters when the pool
runs below 5 candidates. -/
def selectPool (b b2 : QuestionBank) (p : StudentProfile) (topic : Option String) :
    String × List Question :=
  let (level, available) := topicFiltered b (chooseLevel p) topic
  let rq := recentQuestionIds p
  let afterRecency := available.filter (fun q => !rq.contains q.id)
  let pool := if afterRecency = [] then b.tier level else afterRecency
  if pool.length < 5 then
    let a2 := regeneratedAvail b2 level topic rq
    let pool2 := if a2 = [] then b2.tier level else a2
    (level, pool2)
  else (level, pool)

end Select

/-- Runtime outcomes of the API layer.  `indexError` is what
`random.choice` raises on an empty sequence; `notFound` is the HTTP 404
of `submit_answer`.  `noQuestionAvailable` is modelled from the spec: the
explicit "no question available" error §7 demands at selection time — the
implementation itself never raises it. -/
inductive PyError where
  | indexError
  | notFound
  | noQuestionAvailable
deriving DecidableEq

/-- `random.choice(l)`: some element of `l` (the index is abstracted as a
modulus-reduced parameter `k`), raising `IndexError` on an empty list. -/
def randomChoice (l : List α) (k : Nat) : Except PyError α :=
  match l with
  | [] => .error .indexError
  | x :: xs => .ok ((x :: xs).get ⟨k % (x :: xs).length, Nat.mod_lt _ (Nat.succ_pos _)⟩)

/-- `select_question` of `api/__init__.py`: the chosen pool, then
`random.choice`, returning the question together with the `"difficulty"`
key added to the result dict. -/
def select_question (b b2 : QuestionBank) (p : StudentProfile) (topic : Option String)
    (k : Nat) : Except PyError (Question × String) :=
  let (level, pool) := Select.selectPool b b2 p topic
  (randomChoice pool k).map (fun q => (q, level))

/-- ASCII model of Python's `str.lower` character mapping. -/
def lowerChar (c : Char) : Char :=
  match c with
  | 'A' => 'a' | 'B' => 'b' | 'C' => 'c' | 'D' => 'd' | 'E' => 'e' | 'F' => 'f'
  | 'G' => 'g' | 'H' => 'h' | 'I' => 'i' | 'J' => 'j' | 'K' => 'k' | 'L' => 'l'
  | 'M' => 'm' | 'N' => 'n' | 'O' => 'o' | 'P' => 'p' | 'Q' => 'q' | 'R' => 'r'
  | 'S' => 's' | 'T' => 't' | 'U' => 'u' | 'V' => 'v' | 'W' => 'w' | 'X' => 'x'
  | 'Y' => 'y' | 'Z' => 'z'
  | c => c

/-- The whitespace set stripped by Python's `str.strip()`. -/
def pySpace (c : Char) : Bool :=
  c == ' ' || c == '\t' || c == '\n' || c == '\x0b' || c == '\x0c' || c == '\r'

/-- `str.strip()` on the character list: drop whitespace from both ends. -/
def stripChars (l : List Char) : List Char :=
  ((l.dropWhile pySpace).reverse.dropWhile pySpace).reverse

/-- Python `s.lower()`. -/
def pyLower (s : String) : String := ⟨s.data.map lowerChar⟩

/-- Python `s.strip()`. -/
def pyStrip (s : String) : String := ⟨stripChars s.data⟩

/-- Python `s.replace('.', '').replace('-', '')`. -/
def removeDotDash (l : List Char) : List Char :=
  l.filter (fun c => !(c == '.') && !(c == '-'))

/-- Python `s.isdigit()` (ASCII model): nonempty and all digits. -/
def pyIsDigitStr (l : List Char) : Bool := !l.isEmpty && l.all (·.isDigit)

/-- Python substring test `needle in hay`. -/
def containsSub (needle hay : List Char) : Bool :=
  hay.tails.any (fun t => needle.isPrefixOf t)

/-- The `variations` table of `is_answer_correct` in `api/__init__.py`. -/
def variations : List (String × List String) :=
  [("pacific ocean", ["pacific", "pacific ocean"]),
   ("atlantic ocean", ["atlantic", "atlantic ocean"]),
   ("indian ocean", ["indian", "indian ocean"]),
   ("arctic ocean", ["arctic", "arctic ocean"]),
   ("southern ocean", ["southern", "southern ocean"]),
   ("north america", ["north america", "north american"]),
   ("south america", ["south america", "south american"]),
   ("united states", ["usa", "us", "united states", "america"]),
   ("united kingdom", ["uk", "britain", "united kingdom", "england"]),
   ("25π", ["25pi", "25 pi", "25*π", "25 * π"]),
   ("36π", ["36pi", "36 pi", "36*π", "36 * π"]),
   ("10π", ["10pi", "10 pi", "10*π", "10 * π"]),
   ("a² + b² = c²", ["a^2 + b^2 = c^2", "a squared plus b squared equals c squared"]),
   ("0.625", ["625/1000", "5/8"]),
   ("5/6", ["10/12", "0.833"]),
   ("32", ["2^5", "2 to the power of 5"]),
   ("81", ["3^4", "3 to the power of 4"])]

/-- `is_answer_correct` of `submit_answer`: exact match after
normalisation, else (for non-numeric answers) bidirectional substring
match, else the known-variations table. -/
def is_answer_correct (user_answer correct_answer : String) : Bool :=
  let user_clean := pyStrip (pyLower user_answer)
  let correct_clean := pyStrip (pyLower correct_answer)
  if user_clean == correct_clean then true
  else
    let numeric := pyIsDigitStr (removeDotDash user_clean.data) ||
      pyIsDigitStr (removeDotDash correct_clean.data)
    if !numeric &&
        (containsSub correct_clean.data user_clean.data ||
          containsSub user_clean.data correct_clean.data) then true
    else
      variations.any (fun kv =>
        if correct_clean == kv.1 then kv.2.contains user_clean
        else if user_clean == kv.1 then kv.2.contains correct_clean
        else false)

/-- The `AnswerPayload` request model. -/
structure AnswerPayload where
  student : String
  question_id : Int
  answer : String
  response_time : ℚ := 0
  answer_changes : Int := 0
  hints_used : Int := 0

/-- `submit_answer` of `api/__init__.py`, restricted to its core effect:
look the question up in `QUESTION_INDEX` (404 when absent), grade the
answer, and record the session on the profile — with the `skipped` flag
computed as `payload.answer.lower().strip() == "skip" or
payload.answer.lower().strip() == ""`.  The LLM feedback text and
next-action string in the HTTP response are external-collaborator glue
(spec §1/§6) and are not modelled. -/
def submit_answer (qindex : List (Int × (Question × String)))
    (p : StudentProfile) (payload : AnswerPayload) (ts : String) :
    Except PyError (StudentProfile × Bool) :=
  match qindex.lookup payload.question_id with
  | none => .error .notFound
  | some (q, difficulty) =>
    let correct := is_answer_correct payload.answer q.answer
    let skipped := pyStrip (pyLower payload.answer) == "skip" ||
      pyStrip (pyLower payload.answer) == ""
    .ok (p.record_session payload.question_id difficulty payload.answer correct
      payload.response_time payload.answer_changes payload.hints_used
      (q.topic.getD "general") skipped ts, correct)

/-- Profiles reachable from a fresh profile through `record_session`
(arguments unconstrained, as at the Python call sites). -/
inductive Reachable : StudentProfile → Prop where
  | init (name : String) : Reachable (freshProfile name)
  | step (p : StudentProfile) (qid : Int) (difficulty answer : String) (correct : Bool)
      (rt : ℚ) (ac hu : Int) (topic : String) (skipped : Bool) (ts : String) :
      Reachable p →
      Reachable (p.record_session qid difficulty answer correct rt ac hu topic skipped ts)

/-- Profiles reachable from a fresh profile through `record_session`
calls whose response time and answer-change count are nonnegative (what
well-formed clients send; the HTTP layer does not validate this). -/
inductive ReachableNN : StudentProfile → Prop where
  | init (name : String) : ReachableNN (freshProfile name)
  | step (p : StudentProfile) (qid : Int) (difficulty answer : String) (correct : Bool)
      (rt : ℚ) (ac hu : Int) (topic : String) (skipped : Bool) (ts : String) :
      0 ≤ rt → 0 ≤ ac → ReachableNN p →
      ReachableNN (p.record_session qid difficulty answer correct rt ac hu topic skipped ts)

/-- Modelled from the spec (§4.2): the descending threshold mapping from
an engagement score to a discrete level. -/
def levelThresholds (score : ℚ) : String :=
  if score ≥ 85 then "highly_engaged"
  else if score ≥ 70 then "engaged"
  else if score ≥ 55 then "moderate"
  else if score ≥ 35 then "struggling"
  else "disengaged"

/-- Modelled from the spec (§4.4): recent accuracy over the last 5
records, falling back to lifetime accuracy when no records exist. -/
def specRecentAccuracy (p : StudentProfile) : ℚ :=
  if p.learning_sessions = [] then p.accuracy
  else countCorrect (lastN 5 p.learning_sessions) / ((lastN 5 p.learning_sessions).length : ℚ)

/-- Modelled from the spec (§4.4): the five-rule difficulty decision in
priority order. -/
def specDifficulty (p : StudentProfile) : String :=
  let ra := specRecentAccuracy p
  if p.engagement_level = "struggling" ∨ ra < 0.3 then "easy"
  else if p.engagement_level = "highly_engaged" ∧ ra > 0.8 then "hard"
  else if p.learning_pace = "fast" ∧ ra > 0.7 then "hard"
  else if p.learning_pace = "slow" ∧ ra < 0.6 then "easy"
  else "medium"

/-- Modelled from the amended C5: the style with the highest score wins,
and a tie among top scores goes to the LAST of the tied styles in the
order visual, auditory, kinesthetic, reading. -/
def specStyleArgmaxLast (s : StyleScores) : String :=
  if s.reading ≥ s.visual ∧ s.reading ≥ s.auditory ∧ s.reading ≥ s.kinesthetic then "reading"
  else if s.kinesthetic ≥ s.visual ∧ s.kinesthetic ≥ s.auditory then "kinesthetic"
  else if s.auditory ≥ s.visual then "auditory"
  else "visual"

/-- A bare question with the given id (topic missing). -/
def plainQ (n : Int) : Question := { id := n, question := "q", answer := "a" }

/-- An incorrect 30-second "general" session on question `n`. -/
def genSession (n : Int) : LearningSession :=
  { question_id := n, difficulty := "medium", answer := "x", correct := false,
    response_time := 30, answer_changes := 0, hints_used := 0, timestamp := "t",
    topic := "general", skipped := false }

/-- A profile that has answered questions 1..6 (all incorrect, 30s each);
its aggregate counters match the session list. -/
def c3Profile : StudentProfile :=
  { name := "carol", quizzes := 6, correct := 0, total_response_time := 180,
    learning_sessions :=
      [genSession 1, genSession 2, genSession 3, genSession 4, genSession 5, genSession 6] }

/-- An easy tier holding question 1 (answered 6 sessions ago) plus five
fresh questions. -/
def c3Bank : QuestionBank :=
  { easy := [plainQ 1, plainQ 7, plainQ 8, plainQ 9, plainQ 10, plainQ 11],
    medium := [], hard := [] }

/-- A profile that has answered questions 1..5 (all incorrect). -/
def c3wProfile : StudentProfile :=
  { name := "wanda", quizzes := 5, correct := 0, total_response_time := 150,
    learning_sessions :=
      [genSession 1, genSession 2, genSession 3, genSession 4, genSession 5] }

/-- A bank whose easy tier only holds question 2 — just answered, so the
recency exclusion empties the pool and the fallback must reuse it. -/
def c3wBank : QuestionBank :=
  { easy := [plainQ 2], medium := [], hard := [] }

/-- A skipped, incorrect "general" session with the given response time. -/
def skipSession (n : Int) (rt : ℚ) : LearningSession :=
  { question_id := n, difficulty := "medium", answer := "", correct := false,
    response_time := rt, answer_changes := 0, hints_used := 0, timestamp := "t",
    topic := "general", skipped := true }

/-- Ten sessions, all skipped and incorrect, response times alternating
0s/80s (average 40s, variance 1600). -/
def c5Sessions : List LearningSession :=
  [skipSession 1 0, skipSession 2 80, skipSession 3 0, skipSession 4 80,
   skipSession 5 0, skipSession 6 80, skipSession 7 0, skipSession 8 80,
   skipSession 9 0, skipSession 10 80]

/-- A profile holding `c5Sessions`; every learning-style score comes out
exactly 0, a four-way tie.  Counters match the session list. -/
def c5Profile : StudentProfile :=
  { name := "dave", quizzes := 10, correct := 0, total_response_time := 400,
    total_skipped := 10, learning_sessions := c5Sessions }

/-! ### Projection lemmas

`_update_learning_style` / `_update_improvement_trend` /
`_update_engagement_score` touch only their own derived field, so every
counter and the session list pass through them unchanged. -/

namespace StudentProfile

@[simp] theorem updateLearningStyle_quizzes (p : StudentProfile) :
    p.updateLearningStyle.quizzes = p.quizzes := by
  unfold updateLearningStyle; split <;> rfl

@[simp] theorem updateLearningStyle_correct (p : StudentProfile) :
    p.updateLearningStyle.correct = p.correct := by
  unfold updateLearningStyle; split <;> rfl

@[simp] theorem updateLearningStyle_total_response_time (p : StudentProfile) :
    p.updateLearningStyle.total_response_time = p.total_response_time := by
  unfold updateLearningStyle; split <;> rfl

@[simp] theorem updateLearningStyle_total_answer_changes (p : StudentProfile) :
    p.updateLearningStyle.total_answer_changes = p.total_answer_changes := by
  unfold updateLearningStyle; split <;> rfl

@[simp] theorem updateLearningStyle_total_hints_used (p : StudentProfile) :
    p.updateLearningStyle.total_hints_used = p.total_hints_used := by
  unfold updateLearningStyle; split <;> rfl

@[simp] theorem updateLearningStyle_total_skipped (p : StudentProfile) :
    p.updateLearningStyle.total_skipped = p.total_skipped := by
  unfold updateLearningStyle; split <;> rfl

@[simp] theorem updateLearningStyle_learning_sessions (p : StudentProfile) :
    p.updateLearningStyle.learning_sessions = p.learning_sessions := by
  unfold updateLearningStyle; split <;> rfl

@[simp] theorem updateImprovementTrend_quizzes (p : StudentProfile) :
    p.updateImprovementTrend.quizzes = p.quizzes := rfl

@[simp] theorem updateImprovementTrend_correct (p : StudentProfile) :
    p.updateImprovementTrend.correct = p.correct := rfl

@[simp] theorem updateImprovementTrend_total_response_time (p : StudentProfile) :
    p.updateImprovementTrend.total_response_time = p.total_response_time := rfl

@[simp] theorem updateImprovementTrend_total_answer_changes (p : StudentProfile) :
    p.updateImprovementTrend.total_answer_changes = p.total_answer_changes := rfl

@[simp] theorem updateImprovementTrend_total_hints_used (p : StudentProfile) :
    p.updateImprovementTrend.total_hints_used = p.total_hints_used := rfl

@[simp] theorem updateImprovementTrend_total_skipped (p : StudentProfile) :
    p.updateImprovementTrend.total_skipped = p.total_skipped := rfl

@[simp] theorem updateImprovementTrend_sessions (p : StudentProfile) :
    p.updateImprovementTrend.learning_sessions = p.learning_sessions := rfl

@[simp] theorem updateEngagementScore_quizzes (p : StudentProfile) :
    p.updateEngagementScore.quizzes = p.quizzes := rfl

@[simp] theorem updateEngagementScore_correct (p : StudentProfile) :
    p.updateEngagementScore.correct = p.correct := rfl

@[simp] theorem updateEngagementScore_total_response_time (p : StudentProfile) :
    p.updateEngagementScore.total_response_time = p.total_response_time := rfl

@[simp] theorem updateEngagementScore_total_answer_changes (p : StudentProfile) :
    p.updateEngagementScore.total_answer_changes = p.total_answer_changes := rfl

@[simp] theorem updateEngagementScore_total_hints_used (p : StudentProfile) :
    p.updateEngagementScore.total_hints_used = p.total_hints_used := rfl

@[simp] theorem updateEngagementScore_total_skipped (p : StudentProfile) :
    p.updateEngagementScore.total_skipped = p.total_skipped := rfl

@[simp] theorem updateEngagementScore_sessions (p : StudentProfile) :
    p.updateEngagementScore.learning_sessions = p.learning_sessions := rfl

@[simp] theorem updateEngagementScore_engagement_score (p : StudentProfile) :
    p.updateEngagementScore.engagement_score = engagementScoreValue p := rfl

@[simp] theorem engagementScoreValue_updateImprovementTrend (p : StudentProfile) :
    engagementScoreValue p.updateImprovementTrend = engagementScoreValue p := rfl

@[simp] theorem engagementScoreValue_updateLearningStyle (p : StudentProfile) :
    engagementScoreValue p.updateLearningStyle = engagementScoreValue p := by
  unfold updateLearningStyle; split <;> rfl

/-- `_update_engagement_score` reads only the four counters it divides
by/accumulates, so its value is invariant under everything else. -/
theorem engagementScoreValue_congr (p q : StudentProfile)
    (h1 : p.quizzes = q.quizzes) (h2 : p.correct = q.correct)
    (h3 : p.total_response_time = q.total_response_time)
    (h4 : p.total_answer_changes = q.total_answer_changes) :
    engagementScoreValue p = engagementScoreValue q := by
  unfold engagementScoreValue accuracy average_response_time hesitation_score
  rw [h1, h2, h3, h4]

@[simp] theorem record_session_quizzes (p : StudentProfile) (qid : Int)
    (d a : String) (c : Bool) (rt : ℚ) (ac hu : Int) (tp : String) (sk : Bool) (ts : String) :
    (p.record_session qid d a c rt ac hu tp sk ts).quizzes = p.quizzes + 1 := by
  simp [record_session]

@[simp] theorem record_session_correct (p : StudentProfile) (qid : Int)
    (d a : String) (c : Bool) (rt : ℚ) (ac hu : Int) (tp : String) (sk : Bool) (ts : String) :
    (p.record_session qid d a c rt ac hu tp sk ts).correct =
      p.correct + (if c then 1 else 0) := by
  simp [record_session]

@[simp] theorem record_session_total_response_time (p : StudentProfile) (qid : Int)
    (d a : String) (c : Bool) (rt : ℚ) (ac hu : Int) (tp : String) (sk : Bool) (ts : String) :
    (p.record_session qid d a c rt ac hu tp sk ts).total_response_time =
      p.total_response_time + rt := by
  simp [record_session]

@[simp] theorem record_session_total_answer_changes (p : StudentProfile) (qid : Int)
    (d a : String) (c : Bool) (rt : ℚ) (ac hu : Int) (tp : String) (sk : Bool) (ts : String) :
    (p.record_session qid d a c rt ac hu tp sk ts).total_answer_changes =
      p.total_answer_changes + ac := by
  simp [record_session]

@[simp] theorem record_session_learning_sessions (p : StudentProfile) (qid : Int)
    (d a : String) (c : Bool) (rt : ℚ) (ac hu : Int) (tp : String) (sk : Bool) (ts : String) :
    (p.record_session qid d a c rt ac hu tp sk ts).learning_sessions =
      p.learning_sessions ++
        [{ question_id := qid, difficulty := d, answer := a, correct := c,
           response_time := rt, answer_changes := ac, hints_used := hu,
           timestamp := ts, topic := tp, skipped := sk }] := by
  simp [record_session]

theorem record_session_engagement_score (p : StudentProfile) (qid : Int)
    (d a : String) (c : Bool) (rt : ℚ) (ac hu : Int) (tp : String) (sk : Bool) (ts : String) :
    (p.record_session qid d a c rt ac hu tp sk ts).engagement_score =
      engagementScoreValue { p with
        quizzes := p.quizzes + 1,
        correct := p.correct + (if c then 1 else 0),
        total_response_time := p.total_response_time + rt,
        total_answer_changes := p.total_answer_changes + ac } := by
  simp only [record_session, updateEngagementScore_engagement_score,
    engagementScoreValue_updateImprovementTrend, engagementScoreValue_updateLearningStyle]
  exact engagementScoreValue_congr _ _ rfl rfl rfl rfl

end StudentProfile

/-! ### Claims -/

/-- The threshold chain can only produce one of the five scored levels. -/
theorem levelThresholds_mem (s : ℚ) :
    levelThresholds s ∈
      ["learning", "highly_engaged", "engaged", "moderate", "struggling", "disengaged"] := by
  unfold levelThresholds
  split_ifs <;> simp

/-- C9: every profile reachable through `record_session` satisfies
`correct ≤ quizzes`, and `accuracy` returns `correct / quizzes`
(0 when there are no sessions). -/
theorem c9_correct_le_quizzes_and_accuracy (p : StudentProfile) (h : Reachable p) :
    p.correct ≤ p.quizzes ∧
      p.accuracy = if p.quizzes = 0 then 0 else (p.correct : ℚ) / (p.quizzes : ℚ) := by
  constructor
  · induction h with
    | init name => exact le_refl 0
    | step q qid d a c rt ac hu tp sk ts hq ih =>
      simp only [StudentProfile.record_session_quizzes, StudentProfile.record_session_correct]
      split <;> omega
  · unfold StudentProfile.accuracy
    by_cases hq : p.quizzes = 0 <;> simp [hq]

/-- Witness for C9 at a concrete reachable profile. -/
theorem c9_correct_le_quizzes_and_accuracy_witness :
    ((freshProfile "a").record_session 1 "easy" "4" true 3 0 0 "general" false "t").correct ≤
        ((freshProfile "a").record_session 1 "easy" "4" true 3 0 0 "general" false "t").quizzes ∧
      ((freshProfile "a").record_session 1 "easy" "4" true 3 0 0 "general" false "t").accuracy =
        if ((freshProfile "a").record_session 1 "easy" "4" true 3 0 0 "general" false "t").quizzes = 0
        then 0
        else
          (((freshProfile "a").record_session 1 "easy" "4" true 3 0 0 "general" false "t").correct : ℚ) /
            (((freshProfile "a").record_session 1 "easy" "4" true 3 0 0 "general" false "t").quizzes : ℚ) :=
  c9_correct_le_quizzes_and_accuracy _
    (Reachable.step (freshProfile "a") 1 "easy" "4" true 3 0 0 "general" false "t"
      (Reachable.init "a"))

/-- C7: the engagement level is "learning" below 2 sessions and otherwise
is the stored (clamped) engagement score mapped through the descending
thresholds 85/70/55/35. -/
theorem c7_engagement_level_thresholds (p : StudentProfile) :
    p.engagement_level =
      if p.quizzes < 2 then "learning"
      else levelThresholds (StudentProfile.storedEngagementScore p) := rfl

/-- C8: the engagement level of two profiles with the same session
sequence and the same counters is the same (it reads nothing else), and
it always lies in the six-value enumeration. -/
theorem c8_engagement_level_deterministic (p₁ p₂ : StudentProfile)
    (hs : p₁.learning_sessions = p₂.learning_sessions)
    (h1 : p₁.quizzes = p₂.quizzes) (h2 : p₁.correct = p₂.correct)
    (h3 : p₁.total_response_time = p₂.total_response_time)
    (h4 : p₁.total_answer_changes = p₂.total_answer_changes)
    (h5 : p₁.total_hints_used = p₂.total_hints_used)
    (h6 : p₁.total_skipped = p₂.total_skipped)
    (h7 : p₁.quiz_sessions = p₂.quiz_sessions) :
    p₁.engagement_level = p₂.engagement_level ∧
      p₁.engagement_level ∈
        ["learning", "highly_engaged", "engaged", "moderate", "struggling", "disengaged"] := by
  constructor
  · simp only [StudentProfile.engagement_level, StudentProfile.storedEngagementScore,
      StudentProfile.rawEngagementScore, StudentProfile.timeScore, StudentProfile.accuracy,
      StudentProfile.recent_performance, StudentProfile.consistency_score,
      StudentProfile.learning_momentum, StudentProfile.skip_rate,
      StudentProfile.hint_dependency, StudentProfile.hesitation_score,
      StudentProfile.average_response_time]
    rw [hs, h1, h2, h3, h4, h5, h6]
  · have he : p₁.engagement_level =
        if p₁.quizzes < 2 then "learning"
        else levelThresholds (StudentProfile.storedEngagementScore p₁) := rfl
    rw [he]
    split
    · simp
    · exact levelThresholds_mem _

/-- Witness for C8: two concrete profiles sharing sessions and counters
but with different cached style/score fields get the same level. -/
theorem c8_engagement_level_deterministic_witness :
    ({ name := "a", engagement_score := 99, learning_style := "visual" } :
        StudentProfile).engagement_level =
      ({ name := "b", engagement_score := 0 } : StudentProfile).engagement_level ∧
    ({ name := "a", engagement_score := 99, learning_style := "visual" } :
        StudentProfile).engagement_level ∈
      ["learning", "highly_engaged", "engaged", "moderate", "struggling", "disengaged"] :=
  c8_engagement_level_deterministic _ _ rfl rfl rfl rfl rfl rfl rfl rfl

/-- C6: the difficulty chosen by `select_question` follows the spec's
five-rule priority cascade, with recent accuracy over the last 5 records
falling back to lifetime accuracy when no records exist. -/
theorem c6_difficulty_cascade (p : StudentProfile) :
    Select.chooseLevel p = specDifficulty p := by
  have hra : Select.recentAccuracy p = specRecentAccuracy p := by
    unfold Select.recentAccuracy specRecentAccuracy Select.recentSessions
    by_cases h : p.learning_sessions = []
    · simp [h, lastN]
    · have : lastN 5 p.learning_sessions ≠ [] := by
        simp only [lastN, ne_eq, List.drop_eq_nil_iff]
        have := List.length_pos.mpr h
        omega
      simp [this, h]
  unfold Select.chooseLevel specDifficulty
  rw [hra]

/-- C4 counterexample: loading a fully old-format record (every newer
field missing) does not give `quiz_sessions` its data-model default 0 —
the loader deliberately writes 1. -/
theorem c4_counterexample :
    (loadProfile { name := "bob" }).quiz_sessions = 1 ∧
      (loadProfile { name := "bob" }).quiz_sessions ≠ 0 := by
  constructor
  · rfl
  · intro h
    exact one_ne_zero h

/-- C4 amended: on load, every missing field receives its dataclass
default — except `quiz_sessions`, which receives 1 for existing
profiles; a parseable record always loads (the loader is total). -/
theorem c4_amended_load_defaults (d : StoredProfile) :
    (loadProfile d).quiz_sessions = d.quiz_sessions.getD 1 ∧
      (loadProfile d).learning_style = d.learning_style.getD "unknown" ∧
      (loadProfile d).engagement_score = d.engagement_score.getD 0 ∧
      (loadProfile d).learning_sessions = d.learning_sessions.getD [] ∧
      (loadProfile d).preferred_difficulty = d.preferred_difficulty.getD "medium" ∧
      (loadProfile d).quizzes = d.quizzes.getD 0 ∧
      (loadProfile d).correct = d.correct.getD 0 ∧
      (loadProfile d).total_skipped = d.total_skipped.getD 0 ∧
      loadProfile { name := d.name } = { freshProfile d.name with quiz_sessions := 1 } :=
  ⟨rfl, rfl, rfl, rfl, rfl, rfl, rfl, rfl, rfl⟩

/-- The `ReachableNN` invariants needed to bound the engagement score:
counters are nonnegative and `correct` never exceeds `quizzes`. -/
theorem reachableNN_inv (p : StudentProfile) (h : ReachableNN p) :
    0 ≤ p.quizzes ∧ 0 ≤ p.correct ∧ p.correct ≤ p.quizzes ∧
      0 ≤ p.total_response_time ∧ 0 ≤ p.total_answer_changes := by
  induction h with
  | init name => exact ⟨le_refl 0, le_refl 0, le_refl 0, le_refl 0, le_refl 0⟩
  | step q qid d a c rt ac hu tp sk ts hrt hac hq ih =>
    obtain ⟨i1, i2, i3, i4, i5⟩ := ih
    refine ⟨?_, ?_, ?_, ?_, ?_⟩
    · simp only [StudentProfile.record_session_quizzes]; omega
    · simp only [StudentProfile.record_session_correct]; split <;> omega
    · simp only [StudentProfile.record_session_correct,
        StudentProfile.record_session_quizzes]
      split <;> omega
    · simp only [StudentProfile.record_session_total_response_time]
      linarith
    · simp only [StudentProfile.record_session_total_answer_changes]; omega

/-- C1 counterexample: one recorded session with 12 answer changes and a
200-second response leaves a *negative* stored engagement score — the
score written by `record_session` is not clamped into [0,100]. -/
theorem c1_counterexample :
    ((freshProfile "s").record_session 1 "easy" "x" false 200 12 0 "general" false
        "t").engagement_score < 0 := by
  rw [StudentProfile.record_session_engagement_score]
  norm_num [StudentProfile.engagementScoreValue, StudentProfile.accuracy,
    StudentProfile.average_response_time, StudentProfile.hesitation_score,
    freshProfile, max_def]

/-- C1 amended: the score stored by `record_session` lives on an
unclamped 0-to-1 scale: for profiles built from nonnegative response
times and answer-change counts it never exceeds 1 (so in particular it
never exceeds 100), but it has no lower clamp (see the counterexample);
the `[0,100]` clamp exists only inside the `engagement_level` property. -/
theorem c1_amended_score_at_most_one (p : StudentProfile) (qid : Int) (d a : String)
    (c : Bool) (rt : ℚ) (ac hu : Int) (tp : String) (sk : Bool) (ts : String)
    (hp : ReachableNN p) (hrt : 0 ≤ rt) (hac : 0 ≤ ac) :
    (p.record_session qid d a c rt ac hu tp sk ts).engagement_score ≤ 1 := by
  obtain ⟨hq0, hc0, hcq, htrt, htac⟩ := reachableNN_inv p hp
  rw [StudentProfile.record_session_engagement_score]
  unfold StudentProfile.engagementScoreValue StudentProfile.accuracy
    StudentProfile.average_response_time StudentProfile.hesitation_score
  simp only []
  have hq0' : (0 : ℚ) ≤ (p.quizzes : ℚ) := by exact_mod_cast hq0
  have hc0' : (0 : ℚ) ≤ (p.correct : ℚ) := by exact_mod_cast hc0
  have hcq' : (p.correct : ℚ) ≤ (p.quizzes : ℚ) := by exact_mod_cast hcq
  have htac' : (0 : ℚ) ≤ (p.total_answer_changes : ℚ) := by exact_mod_cast htac
  have hac' : (0 : ℚ) ≤ (ac : ℚ) := by exact_mod_cast hac
  split
  · norm_num
  · have hQpos : (0 : ℚ) < ((p.quizzes + 1 : Int) : ℚ) := by
      push_cast; linarith
    have hA : (((p.correct + if c then 1 else 0) : Int) : ℚ) /
        ((p.quizzes + 1 : Int) : ℚ) ≤ 1 := by
      rw [div_le_one hQpos]
      push_cast
      split <;> linarith
    have hT : max 0 (1 - (p.total_response_time + rt) / ((p.quizzes + 1 : Int) : ℚ) / 120) ≤ 1 := by
      have havg : 0 ≤ (p.total_response_time + rt) / ((p.quizzes + 1 : Int) : ℚ) := by
        apply div_nonneg (by linarith) (le_of_lt hQpos)
      apply max_le (by norm_num)
      linarith [div_nonneg havg (by norm_num : (0:ℚ) ≤ 120)]
    have hC : 1 - (((p.total_answer_changes + ac : Int) : ℚ) /
        ((p.quizzes + 1 : Int) : ℚ)) / 3 ≤ 1 := by
      have : 0 ≤ (((p.total_answer_changes + ac : Int) : ℚ) / ((p.quizzes + 1 : Int) : ℚ)) := by
        apply div_nonneg _ (le_of_lt hQpos)
        push_cast; linarith
      linarith [div_nonneg this (by norm_num : (0:ℚ) ≤ 3)]
    set A := (((p.correct + if c then 1 else 0) : Int) : ℚ) / ((p.quizzes + 1 : Int) : ℚ)
    set T := max 0 (1 - (p.total_response_time + rt) / ((p.quizzes + 1 : Int) : ℚ) / 120)
    set C := 1 - (((p.total_answer_changes + ac : Int) : ℚ) / ((p.quizzes + 1 : Int) : ℚ)) / 3
    calc A * 0.5 + T * 0.3 + C * 0.2 ≤ 1 * 0.5 + 1 * 0.3 + 1 * 0.2 := by
          gcongr
      _ = 1 := by norm_num

/-- Witness for the C1 amended bound at a concrete reachable profile. -/
theorem c1_amended_score_at_most_one_witness :
    ((freshProfile "w").record_session 1 "easy" "4" true 3 0 0 "general" false
        "t").engagement_score ≤ 1 :=
  c1_amended_score_at_most_one (freshProfile "w") 1 "easy" "4" true 3 0 0 "general" false "t"
    (ReachableNN.init "w") (by norm_num) (by norm_num)

/-- Lowercasing never turns whitespace into non-whitespace or back. -/
theorem pySpace_lowerChar (c : Char) : pySpace (lowerChar c) = pySpace c := by
  unfold lowerChar
  split <;> rfl

/-- `dropWhile` on whitespace commutes with character lowercasing. -/
theorem dropWhile_pySpace_map_lower (l : List Char) :
    (l.map lowerChar).dropWhile pySpace = (l.dropWhile pySpace).map lowerChar := by
  induction l with
  | nil => rfl
  | cons a l ih =>
    simp only [List.map_cons, List.dropWhile_cons, pySpace_lowerChar]
    by_cases h : pySpace a = true
    · simp [h, ih]
    · simp [h]

/-- Stripping commutes with character lowercasing. -/
theorem stripChars_map_lower (l : List Char) :
    stripChars (l.map lowerChar) = (stripChars l).map lowerChar := by
  unfold stripChars
  rw [dropWhile_pySpace_map_lower, ← List.map_reverse, dropWhile_pySpace_map_lower,
    ← List.map_reverse]

/-- Python `s.lower().strip()` equals `s.strip().lower()`. -/
theorem pyStrip_pyLower (s : String) : pyStrip (pyLower s) = pyLower (pyStrip s) := by
  show (⟨stripChars (s.data.map lowerChar)⟩ : String) = ⟨(stripChars s.data).map lowerChar⟩
  exact congrArg String.mk (stripChars_map_lower s.data)

/-- C10: whenever `submit_answer` records a session, the stored `skipped`
flag is true exactly when the submitted answer — after trimming and
lowercasing — equals "skip" or is empty. -/
theorem c10_skipped_iff (qindex : List (Int × (Question × String)))
    (p : StudentProfile) (payload : AnswerPayload) (ts : String)
    (q : Question) (diff : String)
    (h : qindex.lookup payload.question_id = some (q, diff)) :
    ∃ p' c rec, submit_answer qindex p payload ts = .ok (p', c) ∧
      p'.learning_sessions.getLast? = some rec ∧
      (rec.skipped = true ↔
        (pyLower (pyStrip payload.answer) = "skip" ∨ pyLower (pyStrip payload.answer) = "")) := by
  have hsub : submit_answer qindex p payload ts =
      .ok (p.record_session payload.question_id diff payload.answer
          (is_answer_correct payload.answer q.answer) payload.response_time
          payload.answer_changes payload.hints_used (q.topic.getD "general")
          (pyStrip (pyLower payload.answer) == "skip" ||
            pyStrip (pyLower payload.answer) == "") ts,
        is_answer_correct payload.answer q.answer) := by
    simp only [submit_answer, h]
  refine ⟨_, _,
    { question_id := payload.question_id, difficulty := diff, answer := payload.answer,
      correct := is_answer_correct payload.answer q.answer,
      response_time := payload.response_time, answer_changes := payload.answer_changes,
      hints_used := payload.hints_used, timestamp := ts, topic := q.topic.getD "general",
      skipped := pyStrip (pyLower payload.answer) == "skip" ||
        pyStrip (pyLower payload.answer) == "" }, hsub, ?_, ?_⟩
  · simp only [StudentProfile.record_session_learning_sessions]
    simp
  · rw [pyStrip_pyLower]
    simp

/-- Witness for C10 at a concrete question index and payload. -/
theorem c10_skipped_iff_witness :
    ∃ p' c rec,
      submit_answer [(1, ({ id := 1, question := "2+2", answer := "4" }, "easy"))]
          (freshProfile "a") { student := "a", question_id := 1, answer := " SKIP " } "t" =
        .ok (p', c) ∧
      p'.learning_sessions.getLast? = some rec ∧
      (rec.skipped = true ↔
        (pyLower (pyStrip " SKIP ") = "skip" ∨ pyLower (pyStrip " SKIP ") = "")) :=
  c10_skipped_iff [(1, ({ id := 1, question := "2+2", answer := "4" }, "easy"))]
    (freshProfile "a") { student := "a", question_id := 1, answer := " SKIP " } "t"
    { id := 1, question := "2+2", answer := "4" } "easy" rfl

/-- `random.choice` only ever returns elements of its sequence. -/
theorem randomChoice_mem {α : Type} (l : List α) (k : Nat) (x : α)
    (h : randomChoice l k = .ok x) : x ∈ l := by
  cases l with
  | nil => exact absurd h (by simp [randomChoice])
  | cons a as =>
    simp only [randomChoice, Except.ok.injEq] at h
    rw [← h]
    exact List.get_mem _ _ _

/-- `select_question` as a function of the computed pool. -/
theorem select_question_eq (b b2 : QuestionBank) (p : StudentProfile)
    (topic : Option String) (k : Nat) :
    select_question b b2 p topic k =
      (randomChoice (Select.selectPool b b2 p topic).2 k).map
        (fun q => (q, (Select.selectPool b b2 p topic).1)) := rfl

/-- A fresh profile is routed to the easy tier (recent accuracy 0). -/
theorem chooseLevel_fresh : Select.chooseLevel (freshProfile "z") = "easy" := by
  have hra : Select.recentAccuracy (freshProfile "z") = 0 := by
    norm_num [Select.recentAccuracy, Select.recentSessions, lastN, freshProfile,
      StudentProfile.accuracy]
  unfold Select.chooseLevel
  rw [hra]
  norm_num

/-- On an entirely empty question bank the computed pool is empty. -/
theorem selectPool_empty_bank :
    Select.selectPool ⟨[], [], []⟩ ⟨[], [], []⟩ (freshProfile "z") none = ("easy", []) := by
  unfold Select.selectPool
  rw [chooseLevel_fresh]
  decide

/-- C2 counterexample: with an empty candidate pool, `select_question`
fails with the generic `IndexError` of `random.choice` on an empty
sequence — not with the explicit "no question available" error the spec
demands. -/
theorem c2_counterexample :
    select_question ⟨[], [], []⟩ ⟨[], [], []⟩ (freshProfile "z") none 0 =
        .error .indexError ∧
      PyError.indexError ≠ PyError.noQuestionAvailable := by
  constructor
  · rw [select_question_eq, selectPool_empty_bank]
    rfl
  · intro h
    cases h

/-- C2 amended: whenever the final candidate pool is empty,
`select_question` raises — it never silently returns a result — but the
error is `random.choice`'s unspecific `IndexError`, not an explicit
"no question available" error. -/
theorem c2_amended_empty_pool_raises (b b2 : QuestionBank) (p : StudentProfile)
    (topic : Option String) (k : Nat)
    (h : (Select.selectPool b b2 p topic).2 = []) :
    select_question b b2 p topic k = .error .indexError := by
  rw [select_question_eq, h]
  rfl

/-- Witness for the C2 amended behaviour on the empty bank. -/
theorem c2_amended_empty_pool_raises_witness :
    select_question ⟨[], [], []⟩ ⟨[], [], []⟩ (freshProfile "z") none 7 =
      .error .indexError :=
  c2_amended_empty_pool_raises ⟨[], [], []⟩ ⟨[], [], []⟩ (freshProfile "z") none 7
    (by rw [selectPool_empty_bank])

/-- `selectPool`, restated via pair projections (definitional, by
structure eta for pairs). -/
theorem selectPool_eq (b b2 : QuestionBank) (p : StudentProfile) (topic : Option String) :
    Select.selectPool b b2 p topic =
      (if (if (Select.topicFiltered b (Select.chooseLevel p) topic).2.filter
              (fun x => !(Select.recentQuestionIds p).contains x.id) = []
          then b.tier (Select.topicFiltered b (Select.chooseLevel p) topic).1
          else (Select.topicFiltered b (Select.chooseLevel p) topic).2.filter
              (fun x => !(Select.recentQuestionIds p).contains x.id)).length < 5
       then
         ((Select.topicFiltered b (Select.chooseLevel p) topic).1,
          if Select.regeneratedAvail b2 (Select.topicFiltered b (Select.chooseLevel p) topic).1
              topic (Select.recentQuestionIds p) = []
          then b2.tier (Select.topicFiltered b (Select.chooseLevel p) topic).1
          else Select.regeneratedAvail b2 (Select.topicFiltered b (Select.chooseLevel p) topic).1
              topic (Select.recentQuestionIds p))
       else
         ((Select.topicFiltered b (Select.chooseLevel p) topic).1,
          if (Select.topicFiltered b (Select.chooseLevel p) topic).2.filter
              (fun x => !(Select.recentQuestionIds p).contains x.id) = []
          then b.tier (Select.topicFiltered b (Select.chooseLevel p) topic).1
          else (Select.topicFiltered b (Select.chooseLevel p) topic).2.filter
              (fun x => !(Select.recentQuestionIds p).contains x.id))) := rfl

/-- The all-incorrect profile has recent accuracy 0, so the cascade picks
the easy tier. -/
theorem chooseLevel_c3Profile : Select.chooseLevel c3Profile = "easy" := by
  have hne : Select.recentSessions c3Profile ≠ [] := by decide
  have hra : Select.recentAccuracy c3Profile = 0 := by
    rw [Select.recentAccuracy, if_pos hne]
    norm_num [Select.recentSessions, lastN, c3Profile, genSession, countCorrect]
  unfold Select.chooseLevel
  rw [hra]
  norm_num

/-- Pool evaluation for the C3 counterexample: question 1 (answered six
sessions ago, outside the last-5 window) survives the recency filter. -/
theorem selectPool_c3 :
    Select.selectPool c3Bank c3Bank c3Profile none =
      ("easy", [plainQ 1, plainQ 7, plainQ 8, plainQ 9, plainQ 10, plainQ 11]) := by
  unfold Select.selectPool
  rw [chooseLevel_c3Profile]
  decide

/-- C3 counterexample: `select_question` returns question 1 although its
id is among the last 10 recorded question ids and although excluding all
of the last-10 ids would still leave a nonempty pool — the code's
exclusion window is only the last 5 recorded sessions. -/
theorem c3_counterexample :
    select_question c3Bank c3Bank c3Profile none 0 = .ok (plainQ 1, "easy") ∧
      (plainQ 1).id ∈ (lastN 10 c3Profile.learning_sessions).map (·.question_id) ∧
      (c3Bank.tier "easy").filter
          (fun x => !((lastN 10 c3Profile.learning_sessions).map (·.question_id)).contains x.id)
        ≠ [] := by
  refine ⟨?_, by decide, by decide⟩
  rw [select_question_eq, selectPool_c3]
  rfl

/-- C3 amended: whenever `select_question` returns a question whose id
appears among the (nonzero) question ids of the last 5 recorded sessions,
the recency exclusion had emptied the candidate pool and the result came
from the full tier of the final difficulty — otherwise the recency
exclusion is honoured. -/
theorem c3_amended_recency_window_five (b b2 : QuestionBank) (p : StudentProfile)
    (topic : Option String) (k : Nat) (q : Question) (lvl : String)
    (h : select_question b b2 p topic k = .ok (q, lvl))
    (hid : q.id ∈ Select.recentQuestionIds p) :
    lvl = (Select.topicFiltered b (Select.chooseLevel p) topic).1 ∧
      (((Select.topicFiltered b (Select.chooseLevel p) topic).2.filter
            (fun x => !(Select.recentQuestionIds p).contains x.id) = [] ∧
          q ∈ b.tier (Select.topicFiltered b (Select.chooseLevel p) topic).1) ∨
        (Select.regeneratedAvail b2 (Select.topicFiltered b (Select.chooseLevel p) topic).1
            topic (Select.recentQuestionIds p) = [] ∧
          q ∈ b2.tier (Select.topicFiltered b (Select.chooseLevel p) topic).1)) := by
  have hmem : ∀ (pool : List Question) (lv : String),
      (randomChoice pool k).map (fun x => (x, lv)) = .ok (q, lvl) →
        q ∈ pool ∧ lvl = lv := by
    intro pool lv hp
    cases hr : randomChoice pool k with
    | error e => rw [hr] at hp; exact absurd hp (by simp [Except.map])
    | ok x =>
      rw [hr] at hp
      simp only [Except.map, Except.ok.injEq, Prod.mk.injEq] at hp
      obtain ⟨hx, hl⟩ := hp
      exact ⟨hx ▸ randomChoice_mem pool k x hr, hl.symm⟩
  have hnotin : ∀ (l : List Question),
      q ∈ l.filter (fun x => !(Select.recentQuestionIds p).contains x.id) → False := by
    intro l hq
    rw [List.mem_filter] at hq
    have h2 := hq.2
    rw [Bool.not_eq_true', ← Bool.not_eq_true] at h2
    exact h2 (List.elem_iff.mpr hid)
  rw [select_question_eq, selectPool_eq] at h
  by_cases h5 : (if (Select.topicFiltered b (Select.chooseLevel p) topic).2.filter
        (fun x => !(Select.recentQuestionIds p).contains x.id) = []
      then b.tier (Select.topicFiltered b (Select.chooseLevel p) topic).1
      else (Select.topicFiltered b (Select.chooseLevel p) topic).2.filter
        (fun x => !(Select.recentQuestionIds p).contains x.id)).length < 5
  · rw [if_pos h5] at h
    by_cases ha2 : Select.regeneratedAvail b2
        (Select.topicFiltered b (Select.chooseLevel p) topic).1 topic
        (Select.recentQuestionIds p) = []
    · rw [if_pos ha2] at h
      obtain ⟨hqmem, hlvl⟩ := hmem _ _ h
      exact ⟨hlvl, Or.inr ⟨ha2, hqmem⟩⟩
    · rw [if_neg ha2] at h
      obtain ⟨hqmem, _⟩ := hmem _ _ h
      exact absurd hqmem (hnotin _)
  · rw [if_neg h5] at h
    by_cases hae : (Select.topicFiltered b (Select.chooseLevel p) topic).2.filter
        (fun x => !(Select.recentQuestionIds p).contains x.id) = []
    · rw [if_pos hae] at h
      obtain ⟨hqmem, hlvl⟩ := hmem _ _ h
      exact ⟨hlvl, Or.inl ⟨hae, hqmem⟩⟩
    · rw [if_neg hae] at h
      obtain ⟨hqmem, _⟩ := hmem _ _ h
      exact absurd hqmem (hnotin _)

/-- Recent accuracy 0 routes the witness profile to the easy tier. -/
theorem chooseLevel_c3wProfile : Select.chooseLevel c3wProfile = "easy" := by
  have hne : Select.recentSessions c3wProfile ≠ [] := by decide
  have hra : Select.recentAccuracy c3wProfile = 0 := by
    rw [Select.recentAccuracy, if_pos hne]
    norm_num [Select.recentSessions, lastN, c3wProfile, genSession, countCorrect]
  unfold Select.chooseLevel
  rw [hra]
  norm_num

/-- Pool evaluation for the C3 witness: the only easy question was just
answered, so the recency exclusion empties the pool and the selector
falls back to the full tier. -/
theorem selectPool_c3w :
    Select.selectPool c3wBank c3wBank c3wProfile none = ("easy", [plainQ 2]) := by
  unfold Select.selectPool
  rw [chooseLevel_c3wProfile]
  decide

/-- Witness for the amended C3 at a concrete fallback selection. -/
theorem c3_amended_recency_window_five_witness :
    "easy" = (Select.topicFiltered c3wBank (Select.chooseLevel c3wProfile) none).1 ∧
      (((Select.topicFiltered c3wBank (Select.chooseLevel c3wProfile) none).2.filter
            (fun x => !(Select.recentQuestionIds c3wProfile).contains x.id) = [] ∧
          plainQ 2 ∈ c3wBank.tier
            (Select.topicFiltered c3wBank (Select.chooseLevel c3wProfile) none).1) ∨
        (Select.regeneratedAvail c3wBank
            (Select.topicFiltered c3wBank (Select.chooseLevel c3wProfile) none).1
            none (Select.recentQuestionIds c3wProfile) = [] ∧
          plainQ 2 ∈ c3wBank.tier
            (Select.topicFiltered c3wBank (Select.chooseLevel c3wProfile) none).1)) :=
  c3_amended_recency_window_five c3wBank c3wBank c3wProfile none 0 (plainQ 2) "easy"
    (by rw [select_question_eq, selectPool_c3w]; rfl)
    (by decide)

/-- The conditional chain of `_update_learning_style` picks the highest
of the four scores, but a tie among top scores goes to the LAST of the
tied styles in evaluation order (reading beats kinesthetic beats auditory
beats visual on equality). -/
theorem styleSelection_eq_argmaxLast (s : StyleScores) :
    styleSelection s = specStyleArgmaxLast s := by
  obtain ⟨v, a, k, r⟩ := s
  unfold styleSelection specStyleArgmaxLast
  dsimp only
  by_cases hr : r ≥ v ∧ r ≥ a ∧ r ≥ k
  · obtain ⟨h1, h2, h3⟩ := hr
    conv_rhs => rw [if_pos ⟨h1, h2, h3⟩]
    conv_lhs =>
      rw [if_neg (show ¬(v > a ∧ v > k ∧ v > r) by rintro ⟨hx, hy, hz⟩; linarith),
        if_neg (show ¬(a > k ∧ a > r) by rintro ⟨hx, hy⟩; linarith),
        if_neg (show ¬(k > r) by intro hz; linarith)]
  · conv_rhs => rw [if_neg hr]
    rw [not_and_or, not_and_or] at hr
    by_cases hk : k ≥ v ∧ k ≥ a
    · obtain ⟨hk1, hk2⟩ := hk
      have hkr : k > r := by
        rcases hr with h | h | h <;> rw [not_le] at h <;> linarith
      conv_rhs => rw [if_pos ⟨hk1, hk2⟩]
      conv_lhs =>
        rw [if_neg (show ¬(v > a ∧ v > k ∧ v > r) by rintro ⟨hx, hy, hz⟩; linarith),
          if_neg (show ¬(a > k ∧ a > r) by rintro ⟨hx, hy⟩; linarith),
          if_pos hkr]
    · conv_rhs => rw [if_neg hk]
      rw [not_and_or] at hk
      by_cases ha : a ≥ v
      · have hak : a > k := by
          rcases hk with h | h <;> rw [not_le] at h <;> linarith
        have har : a > r := by
          rcases hr with h | h | h <;> rw [not_le] at h <;> linarith
        conv_rhs => rw [if_pos ha]
        conv_lhs =>
          rw [if_neg (show ¬(v > a ∧ v > k ∧ v > r) by rintro ⟨hx, hy, hz⟩; linarith),
            if_pos ⟨hak, har⟩]
      · conv_rhs => rw [if_neg ha]
        rw [not_le] at ha
        have hvk : v > k := by
          rcases hk with h | h <;> rw [not_le] at h <;> linarith
        have hvr : v > r := by
          rcases hr with h | h | h <;> rw [not_le] at h <;> linarith
        conv_lhs => rw [if_pos ⟨ha, hvk, hvr⟩]

/-- The 20-session window of `c5Profile` is its full session list. -/
theorem lastN20_c5Sessions : lastN 20 c5Profile.learning_sessions = c5Sessions := by
  show c5Sessions.drop (c5Sessions.length - 20) = c5Sessions
  norm_num [c5Sessions]

/-- The maximal response time of `c5Profile`'s window is 80, so the
classifier's unguarded division completes on it (no `ZeroDivisionError`). -/
theorem listMax_c5Sessions : listMax (c5Sessions.map (fun s => s.response_time)) = 80 := by
  have hM : c5Sessions.map (fun s => s.response_time) =
      [0, 80, 0, 80, 0, 80, 0, 80, 0, 80] := rfl
  rw [hM]
  norm_num [listMax, max_def]

/-- The Python classifier completes on `c5Profile`: the windowed response
times are not all zero. -/
theorem c5Profile_not_raises : ¬ StudentProfile.styleScoresRaises c5Profile := by
  intro hcon
  obtain ⟨h1, h2⟩ := hcon
  rw [lastN20_c5Sessions, listMax_c5Sessions] at h2
  norm_num at h2

set_option maxHeartbeats 1000000 in
/-- Every learning-style score of the all-skipped alternating-time
profile is exactly 0 — a four-way tie. -/
theorem calcScores_c5Profile :
    StudentProfile.calcLearningStyleScores c5Profile =
      ({ visual := 0, auditory := 0, kinesthetic := 0, reading := 0 } : StyleScores) := by
  have hE : lastN 20 c5Profile.learning_sessions = c5Sessions := lastN20_c5Sessions
  have hF1 : c5Sessions.filter
      (fun s => s.topic = "geometry" ∨ s.topic = "colors" ∨ s.topic = "patterns") = [] := by
    decide
  have hF2 : c5Sessions.filter
      (fun s => s.topic = "geography" ∨ s.topic = "language" ∨ s.topic = "word_problems") = [] := by
    decide
  have hF3 : c5Sessions.filter (fun s => s.difficulty = "hard") = [] := by decide
  have hM : c5Sessions.map (fun s => s.response_time) =
      [0, 80, 0, 80, 0, 80, 0, 80, 0, 80] := rfl
  have hA : c5Sessions.map (fun s => s.answer_changes) = [0, 0, 0, 0, 0, 0, 0, 0, 0, 0] := rfl
  simp only [StudentProfile.calcLearningStyleScores, hE, hF1, hF2, hF3, hM, hA]
  norm_num [countCorrect, StudentProfile.accuracy, StudentProfile.average_response_time,
    StudentProfile.hint_dependency, StudentProfile.skip_rate, c5Profile, c5Sessions,
    skipSession, listMax, listMin, max_def, min_def]

/-- C5 counterexample: on a profile where the Python classifier completes
(the windowed response times are not all zero) and all four style scores
tie (at 0), it stores "reading" — the LAST style in the order visual,
auditory, kinesthetic, reading — not "visual" as the claimed
first-of-the-tied tie-break would give. -/
theorem c5_counterexample :
    ¬ StudentProfile.styleScoresRaises c5Profile ∧
      StudentProfile.calcLearningStyleScores c5Profile =
        ({ visual := 0, auditory := 0, kinesthetic := 0, reading := 0 } : StyleScores) ∧
      (StudentProfile.updateLearningStyle c5Profile).learning_style = "reading" ∧
      ("reading" : String) ≠ "visual" := by
  refine ⟨c5Profile_not_raises, calcScores_c5Profile, ?_, by decide⟩
  unfold StudentProfile.updateLearningStyle
  rw [if_neg (by decide)]
  show styleSelection (StudentProfile.calcLearningStyleScores c5Profile) = "reading"
  rw [calcScores_c5Profile]
  norm_num [styleSelection]

/-- C5 amended: once at least 10 sessions exist and the classifier
completes — Python raises an uncaught `ZeroDivisionError` instead
whenever the more-than-5 windowed response times are all zero
(`styleScoresRaises`) — the stored learning style is the one with the
strictly highest score, and a tie among top scores is broken toward the
LAST of the tied styles in the order visual, auditory, kinesthetic,
reading. -/
theorem c5_amended_style_tiebreak_last (p : StudentProfile)
    (h : 10 ≤ p.learning_sessions.length)
    (hdef : ¬ p.styleScoresRaises) :
    (p.updateLearningStyle).learning_style =
      specStyleArgmaxLast p.calcLearningStyleScores := by
  unfold StudentProfile.updateLearningStyle
  rw [if_neg (by omega)]
  show styleSelection p.calcLearningStyleScores = specStyleArgmaxLast p.calcLearningStyleScores
  exact styleSelection_eq_argmaxLast _

/-- Witness for the amended C5 at the ten-session profile, on which the
classifier provably completes. -/
theorem c5_amended_style_tiebreak_last_witness :
    (StudentProfile.updateLearningStyle c5Profile).learning_style =
      specStyleArgmaxLast (StudentProfile.calcLearningStyleScores c5Profile) :=
  c5_amended_style_tiebreak_last c5Profile (by decide) c5Profile_not_raises

end ThinkBot
